import Mathlib

/-!
Verification of the potty-timer timer state machine.

The definitions below are a shallow embedding of the TypeScript source:

* `TimerState` embeds the `TimerState` record of `contexts/TimerContext.tsx`
  as persisted by `services/database.ts` (row: id, duration, start_time,
  is_active, remaining_time, is_notification_mode).
* `TimerUpdate` and `applyUpdate` embed `DatabaseService.updateTimer`:
  a partial-field merge where only fields given (`some`) overwrite the row.
* `activeRemaining` and `computeRemaining` embed the time-reconciliation
  expression that every read path inlines:
  `elapsed = Math.floor((now - timer.startTime) / 1000)` and
  `remaining = Math.max(0, timer.duration - elapsed)`; for an inactive
  timer the stored `remainingTime` is returned unchanged.
  JavaScript `Math.floor` of an exact rational is floor division, embedded
  with `Int.fdiv`.
* `startTimer`, `pauseTimer`, `resetTimer`, `changeDurationTimer`,
  `expireCheck`, `newTimer` embed the route handlers
  `PUT /timers/id/start|pause|reset|duration`, the expiry branch of
  `GET /timers/current`, and `POST /timers`.
* `JSValue`, `jsFalsy`, `invalidDuration` embed the JavaScript truthiness
  check `!duration || typeof duration !== "number" || duration <= 0`
  used by `POST /timers` and `PUT /timers/id/duration`.
* `getTimer`, `dbUpdateTimer`, `dbDeleteTimer` embed the store as a list
  of rows; `timersPOST`, `durationPUT`, `timersDELETE` embed the route
  handlers at store level (HTTP status code paired with resulting store).
-/

namespace PottyTimer

/-- The Timer record: id, duration (seconds), startTime (epoch ms),
isActive, remainingTime (seconds), isNotificationMode. -/
structure TimerState where
  id : String
  duration : Int
  startTime : Int
  isActive : Bool
  remainingTime : Int
  isNotificationMode : Bool
deriving DecidableEq, Repr

/-- A partial update, as accepted by `DatabaseService.updateTimer`:
each field is merged into the row only when present. -/
structure TimerUpdate where
  duration : Option Int := none
  startTime : Option Int := none
  isActive : Option Bool := none
  remainingTime : Option Int := none
  isNotificationMode : Option Bool := none
deriving DecidableEq, Repr

/-- `DatabaseService.updateTimer` field merge: a field listed in the
update overwrites the stored value, every other field is kept. -/
def applyUpdate (t : TimerState) (u : TimerUpdate) : TimerState :=
  { id := t.id
    duration := u.duration.getD t.duration
    startTime := u.startTime.getD t.startTime
    isActive := u.isActive.getD t.isActive
    remainingTime := u.remainingTime.getD t.remainingTime
    isNotificationMode := u.isNotificationMode.getD t.isNotificationMode }

/-- The live remaining time of an active timer, as inlined by the route
handlers: `Math.max(0, duration - Math.floor((now - startTime) / 1000))`. -/
def activeRemaining (t : TimerState) (now : Int) : Int :=
  max 0 (t.duration - (now - t.startTime).fdiv 1000)

/-- The reconciliation contract `computeRemaining(timer, now)`: the live
value while active, the frozen snapshot while inactive. -/
def computeRemaining (t : TimerState) (now : Int) : Int :=
  if t.isActive then activeRemaining t now else t.remainingTime

/-- `POST /timers` record construction: `startTime = now`,
`isActive = false`, `remainingTime = duration`,
`isNotificationMode = false`. -/
def newTimer (id : String) (d : Int) (now : Int) : TimerState :=
  { id := id
    duration := d
    startTime := now
    isActive := false
    remainingTime := d
    isNotificationMode := false }

/-- `PUT /timers/id/start`: persist
`isActive = true, startTime = now, isNotificationMode = false`. -/
def startTimer (t : TimerState) (now : Int) : TimerState :=
  applyUpdate t
    { isActive := some true
      startTime := some now
      isNotificationMode := some false }

/-- `PUT /timers/id/pause`: when active, persist `isActive = false` and
the reconciled remaining time; when already inactive, return the record
unchanged without writing. -/
def pauseTimer (t : TimerState) (now : Int) : TimerState :=
  if t.isActive then
    applyUpdate t
      { isActive := some false
        remainingTime := some (activeRemaining t now) }
  else t

/-- `PUT /timers/id/reset`: persist `isActive = false, startTime = now,
remainingTime = duration, isNotificationMode = false`. -/
def resetTimer (t : TimerState) (now : Int) : TimerState :=
  applyUpdate t
    { isActive := some false
      startTime := some now
      remainingTime := some t.duration
      isNotificationMode := some false }

/-- `PUT /timers/id/duration` (after validation): persist the new
duration, `remainingTime = duration` on both branches of the source
conditional, and `startTime = now` when active, kept when inactive. -/
def changeDurationTimer (t : TimerState) (d : Int) (now : Int) : TimerState :=
  applyUpdate t
    { duration := some d
      remainingTime := some (if t.isActive then d else d)
      startTime := some (if t.isActive then now else t.startTime) }

/-- The persisted effect of the expiry branch in `GET /timers/current`:
when the timer is active, its reconciled remaining time is `<= 0` and it
is not yet in notification mode, persist `isActive = false,
remainingTime = 0, isNotificationMode = true` in one update; otherwise
nothing is written. -/
def expireCheck (t : TimerState) (now : Int) : TimerState :=
  if t.isActive then
    if activeRemaining t now ≤ 0 ∧ t.isNotificationMode = false then
      applyUpdate t
        { isActive := some false
          remainingTime := some 0
          isNotificationMode := some true }
    else t
  else t

/-- The JavaScript value extracted by `const { duration } = body`. -/
inductive JSValue where
  | num (n : Int)
  | str (s : String)
  | boolean (b : Bool)
  | null
  | undef
deriving DecidableEq, Repr

/-- JavaScript truthiness: `!v` is true exactly on these values. -/
def jsFalsy : JSValue → Bool
  | JSValue.num n => n == 0
  | JSValue.str s => s == ""
  | JSValue.boolean b => !b
  | JSValue.null => true
  | JSValue.undef => true

/-- The validation guard
`!duration || typeof duration !== "number" || duration <= 0`. -/
def invalidDuration (v : JSValue) : Bool :=
  jsFalsy v ||
    (match v with
     | JSValue.num n => decide (n ≤ 0)
     | _ => true)

/-- The numeric payload of a duration value that passed validation. -/
def durationValue : JSValue → Int
  | JSValue.num n => n
  | _ => 0

/-- `DatabaseService.getTimer`: first row whose id matches, if any. -/
def getTimer (store : List TimerState) (id : String) : Option TimerState :=
  store.find? (fun t => t.id == id)

/-- `DatabaseService.updateTimer` at store level: merge the update into
the row with the given id, leaving other rows untouched. -/
def dbUpdateTimer (store : List TimerState) (id : String) (u : TimerUpdate) :
    List TimerState :=
  store.map (fun t => if t.id == id then applyUpdate t u else t)

/-- `DatabaseService.deleteTimer`: the SQL `DELETE FROM timers WHERE
id = ?` removes matching rows and resolves successfully whether or not
any row matched; only an underlying storage failure would reject. -/
def dbDeleteTimer (store : List TimerState) (id : String) :
    Except String (List TimerState) :=
  Except.ok (store.filter (fun t => !(t.id == id)))

/-- `POST /timers`: reject an invalid duration with 400 before any store
access; otherwise insert the new record. -/
def timersPOST (body : JSValue) (now : Int) (freshId : String)
    (store : List TimerState) : Nat × List TimerState :=
  if invalidDuration body then (400, store)
  else (200, store ++ [newTimer freshId (durationValue body) now])

/-- `PUT /timers/id/duration`: 404 when the id does not resolve, 400 on
an invalid duration (store untouched in both cases), else persist the
duration change. -/
def durationPUT (id : String) (body : JSValue) (now : Int)
    (store : List TimerState) : Nat × List TimerState :=
  match getTimer store id with
  | none => (404, store)
  | some timer =>
      if invalidDuration body then (400, store)
      else
        (200,
          dbUpdateTimer store id
            { duration := some (durationValue body)
              remainingTime :=
                some (if timer.isActive then durationValue body
                      else durationValue body)
              startTime :=
                some (if timer.isActive then now else timer.startTime) })

/-- `DELETE /timers/id`: 404 when the id does not resolve; otherwise
delete through the store and report success. -/
def timersDELETE (id : String) (store : List TimerState) :
    Nat × List TimerState :=
  match getTimer store id with
  | none => (404, store)
  | some _ =>
      match dbDeleteTimer store id with
      | Except.ok s => (200, s)
      | Except.error _ => (500, store)

/-- The flag-exclusivity invariant: `isActive` and `isNotificationMode`
are not both true. -/
def flagsExclusive (t : TimerState) : Bool :=
  !(t.isActive && t.isNotificationMode)

/-- Floor division by 1000 of a nonnegative integer is nonnegative. -/
lemma fdiv_1000_nonneg {a : Int} (h : 0 ≤ a) : 0 ≤ a.fdiv 1000 := by
  rw [Int.fdiv_eq_ediv _ (by norm_num)]
  exact Int.ediv_nonneg h (by norm_num)

/-- Floor division by 1000 is monotone. -/
lemma fdiv_1000_mono {a b : Int} (h : a ≤ b) : a.fdiv 1000 ≤ b.fdiv 1000 := by
  rw [Int.fdiv_eq_ediv _ (by norm_num), Int.fdiv_eq_ediv _ (by norm_num)]
  exact Int.ediv_le_ediv (by norm_num) h

/-- On an active timer, `computeRemaining` is the clamped live value. -/
lemma computeRemaining_active {t : TimerState} (hact : t.isActive = true)
    (now : Int) :
    computeRemaining t now =
      max 0 (t.duration - (now - t.startTime).fdiv 1000) := by
  simp [computeRemaining, hact, activeRemaining]

/-- Claim C1, as stated, is false on the code: the route handlers clamp
the final remaining value at 0, not the elapsed time, so for an active
timer read with `now < startTime` the elapsed value is negative and the
result exceeds the duration. Concretely, with `duration = 10`,
`startTime = 5000` and `now = 0`, `computeRemaining` yields 15 > 10. -/
theorem C1_counterexample :
    (⟨"t1", 10, 5000, true, 10, false⟩ : TimerState).isActive = true ∧
    (⟨"t1", 10, 5000, true, 10, false⟩ : TimerState).duration <
      computeRemaining ⟨"t1", 10, 5000, true, 10, false⟩ 0 := by
  refine ⟨rfl, ?_⟩
  decide

/-- Claim C1 (amended): for an active timer with positive duration,
`computeRemaining` is clamped below at 0 for every `now`, and whenever
`now` is at least `startTime` the result also stays at most `duration`,
so the `[0, duration]` bound holds on every read with `now` at or after
the start; the clamp the code applies is on the result, not on the
elapsed time, and the upper bound genuinely needs `startTime ≤ now`. -/
theorem C1_amended (t : TimerState) (now : Int) (hact : t.isActive = true)
    (hdur : 0 < t.duration) (hnow : t.startTime ≤ now) :
    0 ≤ computeRemaining t now ∧ computeRemaining t now ≤ t.duration := by
  rw [computeRemaining_active hact]
  refine ⟨le_max_left 0 _, ?_⟩
  have h2 : 0 ≤ (now - t.startTime).fdiv 1000 := fdiv_1000_nonneg (by omega)
  apply max_le (le_of_lt hdur)
  omega

/-- Witness for C1 (amended) at a concrete active timer. -/
theorem C1_witness :
    0 ≤ computeRemaining ⟨"w1", 10, 0, true, 10, false⟩ 500 ∧
    computeRemaining ⟨"w1", 10, 0, true, 10, false⟩ 500 ≤
      (⟨"w1", 10, 0, true, 10, false⟩ : TimerState).duration :=
  C1_amended _ 500 rfl (by decide) (by decide)

/-- Claim C2: for an inactive timer, `computeRemaining` returns the
stored `remainingTime` unchanged for every `now`, and the pause path
passes the record through untouched. -/
theorem C2_inactive_frozen (t : TimerState) (now : Int)
    (h : t.isActive = false) :
    computeRemaining t now = t.remainingTime ∧ pauseTimer t now = t := by
  constructor
  · simp [computeRemaining, h]
  · simp [pauseTimer, h]

/-- Witness for C2 at a concrete inactive timer and a large clock. -/
theorem C2_witness :
    computeRemaining ⟨"w2", 10, 0, false, 7, false⟩ 99999 =
      (⟨"w2", 10, 0, false, 7, false⟩ : TimerState).remainingTime ∧
    pauseTimer ⟨"w2", 10, 0, false, 7, false⟩ 99999 =
      ⟨"w2", 10, 0, false, 7, false⟩ :=
  C2_inactive_frozen _ 99999 rfl

/-- Claim C3: for an active, not-yet-notifying timer whose reconciled
remaining time is 0, the expiry branch persists `isActive = false,
remainingTime = 0, isNotificationMode = true` in one update, and a
second run on the resulting record changes nothing, because the
`isActive = true` guard no longer holds. -/
theorem C3_expire_idempotent (t : TimerState) (a b : Int)
    (hact : t.isActive = true) (hnm : t.isNotificationMode = false)
    (hrem : computeRemaining t a = 0) :
    (expireCheck t a).isActive = false ∧
    (expireCheck t a).remainingTime = 0 ∧
    (expireCheck t a).isNotificationMode = true ∧
    expireCheck (expireCheck t a) b = expireCheck t a := by
  have hr : activeRemaining t a = 0 := by
    have hc : computeRemaining t a = activeRemaining t a := by
      simp [computeRemaining, hact]
    exact hc.symm.trans hrem
  have he : expireCheck t a =
      applyUpdate t
        { isActive := some false
          remainingTime := some 0
          isNotificationMode := some true } := by
    simp [expireCheck, hact, hr, hnm]
  rw [he]
  have hoff :
      (applyUpdate t
          { isActive := some false
            remainingTime := some 0
            isNotificationMode := some true }).isActive = false := by
    simp [applyUpdate]
  refine ⟨hoff, by simp [applyUpdate], by simp [applyUpdate], ?_⟩
  simp [expireCheck, hoff]

/-- Witness for C3: a two-second timer started at epoch 0 and read at
3000 ms has expired; the transition fires once and the second run is a
no-op. -/
theorem C3_witness :
    (expireCheck ⟨"e1", 2, 0, true, 2, false⟩ 3000).isActive = false ∧
    (expireCheck ⟨"e1", 2, 0, true, 2, false⟩ 3000).remainingTime = 0 ∧
    (expireCheck ⟨"e1", 2, 0, true, 2, false⟩ 3000).isNotificationMode = true ∧
    expireCheck (expireCheck ⟨"e1", 2, 0, true, 2, false⟩ 3000) 4000 =
      expireCheck ⟨"e1", 2, 0, true, 2, false⟩ 3000 :=
  C3_expire_idempotent _ 3000 4000 rfl rfl (by decide)

/-- Claim C4, as stated, is false on the code: the generic update path
merges arbitrary fields without validation, so updating a well-formed
idle record with `isActive = true` and `isNotificationMode = true`
together produces a record with both flags set. -/
theorem C4_counterexample :
    flagsExclusive ⟨"g1", 60, 0, false, 60, false⟩ = true ∧
    flagsExclusive
        (applyUpdate ⟨"g1", 60, 0, false, 60, false⟩
          { isActive := some true, isNotificationMode := some true }) =
      false := by
  decide

/-- Claim C4 (amended): create, start, pause, reset, changeDuration and
expire each preserve the exclusivity of `isActive` and
`isNotificationMode`; the generic partial update is excluded, since it
can set both flags at once. -/
theorem C4_amended (t : TimerState) (id : String) (d now : Int)
    (h : flagsExclusive t = true) :
    flagsExclusive (newTimer id d now) = true ∧
    flagsExclusive (startTimer t now) = true ∧
    flagsExclusive (pauseTimer t now) = true ∧
    flagsExclusive (resetTimer t now) = true ∧
    flagsExclusive (changeDurationTimer t d now) = true ∧
    flagsExclusive (expireCheck t now) = true := by
  refine ⟨?_, ?_, ?_, ?_, ?_, ?_⟩
  · simp [flagsExclusive, newTimer]
  · simp [flagsExclusive, startTimer, applyUpdate]
  · by_cases hA : t.isActive
    · simp [flagsExclusive, pauseTimer, hA, applyUpdate]
    · simp [flagsExclusive, pauseTimer, hA]
  · simp [flagsExclusive, resetTimer, applyUpdate]
  · simpa [flagsExclusive, changeDurationTimer, applyUpdate] using h
  · by_cases hA : t.isActive
    · by_cases hG : activeRemaining t now ≤ 0 ∧ t.isNotificationMode = false
      · simp [flagsExclusive, expireCheck, hA, hG, applyUpdate]
      · simpa [flagsExclusive, expireCheck, hA, hG] using h
    · simp [flagsExclusive, expireCheck, hA]

/-- Witness for C4 (amended) at a concrete running timer. -/
theorem C4_witness :
    flagsExclusive (newTimer "g3" 30 5) = true ∧
    flagsExclusive (startTimer ⟨"g2", 60, 0, true, 60, false⟩ 5) = true ∧
    flagsExclusive (pauseTimer ⟨"g2", 60, 0, true, 60, false⟩ 5) = true ∧
    flagsExclusive (resetTimer ⟨"g2", 60, 0, true, 60, false⟩ 5) = true ∧
    flagsExclusive
        (changeDurationTimer ⟨"g2", 60, 0, true, 60, false⟩ 30 5) = true ∧
    flagsExclusive (expireCheck ⟨"g2", 60, 0, true, 60, false⟩ 5) = true :=
  C4_amended _ "g3" 30 5 (by decide)

/-- Claim C5: changing the duration persists `duration = d` and
`remainingTime = d`; on an active timer it also moves `startTime` to
`now`, so the reconciled value read immediately afterwards is exactly
`d`; on an inactive timer `startTime` is kept. -/
theorem C5_changeDuration (t : TimerState) (d now : Int) (hd : 0 < d) :
    (changeDurationTimer t d now).duration = d ∧
    (changeDurationTimer t d now).remainingTime = d ∧
    (t.isActive = true →
      (changeDurationTimer t d now).startTime = now ∧
      computeRemaining (changeDurationTimer t d now) now = d) ∧
    (t.isActive = false →
      (changeDurationTimer t d now).startTime = t.startTime) := by
  refine ⟨?_, ?_, ?_, ?_⟩
  · simp [changeDurationTimer, applyUpdate]
  · simp [changeDurationTimer, applyUpdate]
  · intro hA
    have hA2 : (changeDurationTimer t d now).isActive = true := by
      simp [changeDurationTimer, applyUpdate, hA]
    have hst : (changeDurationTimer t d now).startTime = now := by
      simp [changeDurationTimer, applyUpdate, hA]
    have hdu : (changeDurationTimer t d now).duration = d := by
      simp [changeDurationTimer, applyUpdate]
    refine ⟨hst, ?_⟩
    rw [computeRemaining_active hA2, hst, hdu, sub_self]
    have h0 : (0 : Int).fdiv 1000 = 0 := by decide
    rw [h0, sub_zero]
    exact max_eq_right (le_of_lt hd)
  · intro hA
    simp [changeDurationTimer, applyUpdate, hA]

/-- Witness for C5: shortening a running one-hour timer to 1800 seconds
at clock 10000 ms makes the immediate read return 1800, not 1790. -/
theorem C5_witness :
    (changeDurationTimer ⟨"c1", 3600, 0, true, 3600, false⟩ 1800
        10000).duration = 1800 ∧
    (changeDurationTimer ⟨"c1", 3600, 0, true, 3600, false⟩ 1800
        10000).remainingTime = 1800 ∧
    ((⟨"c1", 3600, 0, true, 3600, false⟩ : TimerState).isActive = true →
      (changeDurationTimer ⟨"c1", 3600, 0, true, 3600, false⟩ 1800
          10000).startTime = 10000 ∧
      computeRemaining
          (changeDurationTimer ⟨"c1", 3600, 0, true, 3600, false⟩ 1800
            10000) 10000 = 1800) ∧
    ((⟨"c1", 3600, 0, true, 3600, false⟩ : TimerState).isActive = false →
      (changeDurationTimer ⟨"c1", 3600, 0, true, 3600, false⟩ 1800
          10000).startTime =
        (⟨"c1", 3600, 0, true, 3600, false⟩ : TimerState).startTime) :=
  C5_changeDuration _ 1800 10000 (by decide)

/-- Pausing an already-inactive timer returns the record unchanged. -/
lemma pauseTimer_inactive {s : TimerState} (h : s.isActive = false)
    (now : Int) : pauseTimer s now = s := by
  simp [pauseTimer, h]

/-- After a pause the record is always inactive. -/
lemma pauseTimer_isActive (s : TimerState) (now : Int) :
    (pauseTimer s now).isActive = false := by
  cases hA : s.isActive
  · simp [pauseTimer, hA]
  · simp [pauseTimer, hA, applyUpdate]

/-- Claim C6: pause is idempotent: pausing an inactive timer is a no-op
that returns the record unchanged, so a second pause returns the first
result unchanged and in particular reads the same `remainingTime`. -/
theorem C6_pause_idempotent (t : TimerState) (a b : Int) :
    (t.isActive = false → pauseTimer t a = t) ∧
    pauseTimer (pauseTimer t a) b = pauseTimer t a ∧
    (pauseTimer (pauseTimer t a) b).remainingTime =
      (pauseTimer t a).remainingTime := by
  have h2 : pauseTimer (pauseTimer t a) b = pauseTimer t a :=
    pauseTimer_inactive (pauseTimer_isActive t a) b
  exact ⟨fun h => pauseTimer_inactive h a, h2, by rw [h2]⟩

/-- Witness for C6 at a concrete running timer paused twice. -/
theorem C6_witness :
    ((⟨"p1", 10, 0, true, 10, false⟩ : TimerState).isActive = false →
      pauseTimer ⟨"p1", 10, 0, true, 10, false⟩ 3000 =
        ⟨"p1", 10, 0, true, 10, false⟩) ∧
    pauseTimer (pauseTimer ⟨"p1", 10, 0, true, 10, false⟩ 3000) 7000 =
      pauseTimer ⟨"p1", 10, 0, true, 10, false⟩ 3000 ∧
    (pauseTimer (pauseTimer ⟨"p1", 10, 0, true, 10, false⟩ 3000)
        7000).remainingTime =
      (pauseTimer ⟨"p1", 10, 0, true, 10, false⟩ 3000).remainingTime :=
  C6_pause_idempotent _ 3000 7000

/-- Claim C8: for an active timer, `computeRemaining` is monotonically
non-increasing as `now` increases and never negative, including for
`now < startTime`. -/
theorem C8_monotone_nonneg (t : TimerState) (a b : Int)
    (hact : t.isActive = true) (hab : a ≤ b) :
    computeRemaining t b ≤ computeRemaining t a ∧
      0 ≤ computeRemaining t b := by
  rw [computeRemaining_active hact, computeRemaining_active hact]
  have hm : (a - t.startTime).fdiv 1000 ≤ (b - t.startTime).fdiv 1000 :=
    fdiv_1000_mono (by omega)
  refine ⟨max_le_max (le_refl 0) (by omega), le_max_left 0 _⟩

/-- Witness for C8 at a concrete active timer, including a clock before
the start time. -/
theorem C8_witness :
    computeRemaining ⟨"w8", 10, 4000, true, 10, false⟩ 2000 ≤
      computeRemaining ⟨"w8", 10, 4000, true, 10, false⟩ 1000 ∧
    0 ≤ computeRemaining ⟨"w8", 10, 4000, true, 10, false⟩ 2000 :=
  C8_monotone_nonneg _ 1000 2000 rfl (by decide)

/-- Claim C7: an invalid duration value (falsy, non-numeric or not
positive) makes `POST /timers` answer 400 with the store untouched, and
makes `PUT /timers/id/duration` leave the store untouched, answering 400
whenever the id resolves to a record. -/
theorem C7_invalid_no_mutation (body : JSValue) (now : Int)
    (fid id : String) (store : List TimerState)
    (hinv : invalidDuration body = true) :
    timersPOST body now fid store = (400, store) ∧
    (durationPUT id body now store).2 = store ∧
    ((getTimer store id).isSome = true →
      durationPUT id body now store = (400, store)) := by
  refine ⟨by simp [timersPOST, hinv], ?_, ?_⟩
  · cases hg : getTimer store id with
    | none => simp [durationPUT, hg]
    | some u => simp [durationPUT, hg, hinv]
  · intro hs
    cases hg : getTimer store id with
    | none => rw [hg] at hs; exact absurd hs (by simp)
    | some u => simp [durationPUT, hg, hinv]

/-- Witness for C7: duration 0 is rejected by both routes and the
single stored record is untouched. -/
theorem C7_witness :
    timersPOST (JSValue.num 0) 5 "f1" [⟨"a1", 10, 0, false, 10, false⟩] =
      (400, [⟨"a1", 10, 0, false, 10, false⟩]) ∧
    (durationPUT "a1" (JSValue.num 0) 5
        [⟨"a1", 10, 0, false, 10, false⟩]).2 =
      [⟨"a1", 10, 0, false, 10, false⟩] ∧
    ((getTimer [⟨"a1", 10, 0, false, 10, false⟩] "a1").isSome = true →
      durationPUT "a1" (JSValue.num 0) 5
          [⟨"a1", 10, 0, false, 10, false⟩] =
        (400, [⟨"a1", 10, 0, false, 10, false⟩])) :=
  C7_invalid_no_mutation _ 5 "f1" "a1" _ (by decide)

/-- Claim C9, as stated, is false at the store layer it names: the SQL
delete resolves successfully even when the id matches no row, so
`DatabaseService.deleteTimer` reports success for an id that does not
exist; here it succeeds on the empty store although lookup finds
nothing. -/
theorem C9_counterexample :
    getTimer [] "missing" = none ∧
    dbDeleteTimer [] "missing" = Except.ok [] :=
  ⟨rfl, rfl⟩

/-- Claim C9 (amended): the delete operation as exposed by the DELETE
route answers NotFound when the id resolves to no record and reports
success only for an existing id; the underlying store-level delete
itself always resolves successfully, whether or not a row matched. -/
theorem C9_amended (id : String) (store : List TimerState) :
    (getTimer store id = none → timersDELETE id store = (404, store)) ∧
    ((timersDELETE id store).1 = 200 →
      (getTimer store id).isSome = true) ∧
    dbDeleteTimer store id =
      Except.ok (store.filter (fun t => !(t.id == id))) := by
  refine ⟨?_, ?_, rfl⟩
  · intro hg
    simp [timersDELETE, hg]
  · intro h200
    cases hg : getTimer store id with
    | none =>
        rw [timersDELETE, hg] at h200
        exact absurd h200 (by simp)
    | some u => simp [hg]

/-- Witness for C9 (amended) at a one-record store and a matching id. -/
theorem C9_witness :
    (getTimer [⟨"d1", 10, 0, false, 10, false⟩] "d1" = none →
      timersDELETE "d1" [⟨"d1", 10, 0, false, 10, false⟩] =
        (404, [⟨"d1", 10, 0, false, 10, false⟩])) ∧
    ((timersDELETE "d1" [⟨"d1", 10, 0, false, 10, false⟩]).1 = 200 →
      (getTimer [⟨"d1", 10, 0, false, 10, false⟩] "d1").isSome = true) ∧
    dbDeleteTimer [⟨"d1", 10, 0, false, 10, false⟩] "d1" =
      Except.ok
        ([⟨"d1", 10, 0, false, 10, false⟩].filter
          (fun t => !(t.id == "d1"))) :=
  C9_amended "d1" _

/-- Claim C10: the duration change never touches `isNotificationMode`,
so applied to a record in the Expired/Alert state it leaves the flag
set while storing the new positive `remainingTime`; a timer can
therefore sit in notification mode with positive remaining time. -/
theorem C10_duration_frame (t : TimerState) (d now : Int)
    (hnm : t.isNotificationMode = true) (_hina : t.isActive = false)
    (hd : 0 < d) :
    (changeDurationTimer t d now).isNotificationMode =
      t.isNotificationMode ∧
    (changeDurationTimer t d now).isNotificationMode = true ∧
    (changeDurationTimer t d now).remainingTime = d ∧
    0 < (changeDurationTimer t d now).remainingTime := by
  have hf : (changeDurationTimer t d now).isNotificationMode =
      t.isNotificationMode := by
    simp [changeDurationTimer, applyUpdate]
  have hr : (changeDurationTimer t d now).remainingTime = d := by
    simp [changeDurationTimer, applyUpdate]
  exact ⟨hf, hf.trans hnm, hr, by rw [hr]; exact hd⟩

/-- Witness for C10 at a concrete expired timer in notification mode. -/
theorem C10_witness :
    (changeDurationTimer ⟨"n1", 2, 0, false, 0, true⟩ 30
        9).isNotificationMode =
      (⟨"n1", 2, 0, false, 0, true⟩ : TimerState).isNotificationMode ∧
    (changeDurationTimer ⟨"n1", 2, 0, false, 0, true⟩ 30
        9).isNotificationMode = true ∧
    (changeDurationTimer ⟨"n1", 2, 0, false, 0, true⟩ 30
        9).remainingTime = 30 ∧
    0 < (changeDurationTimer ⟨"n1", 2, 0, false, 0, true⟩ 30
        9).remainingTime :=
  C10_duration_frame _ 30 9 rfl rfl (by decide)

end PottyTimer
